import Mathlib

/-!
Verification of the outbound message dispatch and personalization layer of the
Real-Estate-Outreach-Automation backend.

The development shallowly embeds, from the Python sources:
  * `backend/app/utils/email_service.py` — the `DailySendLimiter`
    (`can_send` / `record_send` with UTC-day auto-reset), the placeholder
    personalization engine (`personalize_template`), and the retrying
    campaign send (`send_campaign_email`, daily-limit gate, exponential
    backoff, message-id persistence via `_persist_message_id`);
  * `backend/app/routers/campaigns.py` — the per-lead body of the
    `start_campaign` dispatch loop (delivery-record creation, status
    updates, failure accounting);
  * `backend/app/utils/ai_service.py` — `generate_chatbot_reply` and its
    helpers (`_safe_next_action_type`, `_openai_chatbot_json`).

Modelling conventions:
  * Python strings are Lean `String`s, and `str.replace` is embedded as a
    left-to-right non-overlapping scan (`replaceAll`, fuelled by the length
    of the subject string so that it is structurally recursive and
    kernel-computable).
  * Python dict values that may be absent, `None`, or a string are embedded
    as the three-state type `PyVal`; Python truthiness of such a value is
    `PyVal.truthy` and `str(...)` is `PyVal.pyStr` (so `str(None) = "None"`).
  * Wall-clock days are abstract `Nat` day numbers; each limiter operation
    receives the current day as an argument (the Python code reads
    `date.today()` at the same points).
  * The dispatch backend (`EmailService.send_email`, i.e. the mock or the
    SendGrid path) is abstracted as a function from the attempt number to a
    `SendResult`: the mock path always succeeds with a fresh id, the
    SendGrid path either succeeds with a provider id or catches an
    exception and reports its text, which is exactly the shape of
    `SendResult`.
  * The LLM call and `json.loads` inside the AI service are abstracted as a
    `ProviderOutcome` input carrying the raw text and its parse outcome.
-/

/-! ## Python string primitives -/

/-- Three-state embedding of a Python dict lookup target: the key can be
absent, present with value `None`, or present with a string value. -/
inductive PyVal where
  | absent
  | null
  | str (s : String)
deriving Repr, DecidableEq

/-- Embedding of `lead_data.get(key, "")`: an absent key yields the default
`""`, otherwise the stored value (possibly `None`). -/
def PyVal.getOrEmpty : PyVal → PyVal
  | .absent => .str ""
  | v => v

/-- Embedding of Python `str(...)` on such a value (`str(None) = "None"`);
`absent` never reaches `str` in the embedded code paths. -/
def PyVal.pyStr : PyVal → String
  | .absent => ""
  | .null => "None"
  | .str s => s

/-- Python truthiness of such a value: `None` and `""` are falsy. -/
def PyVal.truthy : PyVal → Bool
  | .str s => !s.data.isEmpty
  | _ => false

/-- One step of Python's `str.replace(old, new)`: scan left to right, on a
match emit `rep` and continue after the matched text (no rescanning of the
emitted replacement). The `fuel` argument makes the recursion structural;
`replaceAll` supplies `s.length` which is always sufficient because every
step consumes at least one character of the subject. -/
def replaceAllF (pat rep : List Char) : Nat → List Char → List Char
  | 0, s => s
  | _ + 1, [] => []
  | fuel + 1, c :: rest =>
    if pat ≠ [] ∧ pat.isPrefixOf (c :: rest) then
      rep ++ replaceAllF pat rep fuel (rest.drop (pat.length - 1))
    else
      c :: replaceAllF pat rep fuel rest

/-- Python `s.replace(pat, rep)` on character lists (for non-empty `pat`,
which is the only way the embedded code calls it). -/
def replaceAll (pat rep s : List Char) : List Char :=
  replaceAllF pat rep s.length s

/-- Python `s.replace(pat, rep)` on strings. -/
def pyReplace (s pat rep : String) : String :=
  ⟨replaceAll pat.data rep.data s.data⟩

/-- `occurs pat s` is true when `pat` occurs as a contiguous run inside `s`
(Python `pat in s` for non-empty `pat`). -/
def occurs (pat : List Char) : List Char → Bool
  | [] => false
  | c :: rest => pat.isPrefixOf (c :: rest) || occurs pat rest

/-- Python `s.strip()`: drop whitespace from both ends. -/
def trimChars (s : List Char) : List Char :=
  ((s.dropWhile Char.isWhitespace).reverse.dropWhile Char.isWhitespace).reverse

/-- Python `s.strip()` on strings. -/
def pyStrip (s : String) : String :=
  ⟨trimChars s.data⟩

/-- Python character slicing `s[:n]`. -/
def pyTake (s : String) (n : Nat) : String :=
  ⟨s.data.take n⟩

/-! ## Daily send limiter (`DailySendLimiter`) -/

/-- The in-memory state of `DailySendLimiter`: `_count` and `_date` (the day
marker, as an abstract day number). -/
structure LimiterState where
  count : Nat
  day : Nat
deriving Repr, DecidableEq

/-- `DailySendLimiter._reset_if_new_day`, with the current wall-clock day
passed explicitly. -/
def resetIfNewDay (s : LimiterState) (today : Nat) : LimiterState :=
  if today ≠ s.day then { count := 0, day := today } else s

/-- `DailySendLimiter.can_send`: the returned boolean together with the
mutated state (the reset is a side effect of the call). `limit` is the
configured `SENDGRID_DAILY_SEND_LIMIT`. -/
def can_send (limit : Int) (s : LimiterState) (today : Nat) : Bool × LimiterState :=
  let s := resetIfNewDay s today
  if limit ≤ 0 then (true, s)
  else (decide ((s.count : Int) < limit), s)

/-- `DailySendLimiter.record_send`: reset if the day advanced, then
increment unconditionally. -/
def record_send (s : LimiterState) (today : Nat) : LimiterState :=
  let s := resetIfNewDay s today
  { s with count := s.count + 1 }

/-! ## Template personalization (`EmailService.personalize_template`) -/

/-- The lead-attribute mapping passed to `personalize_template`: one slot per
key the function looks up (each may be absent, `None`, or a string). -/
structure LeadData where
  first_name : PyVal
  last_name : PyVal
  email : PyVal
  phone : PyVal
  address : PyVal
  property_type : PyVal
  estimated_value : PyVal
  lead_id : PyVal
deriving Repr, DecidableEq

/-- The `placeholders` dict of `personalize_template`, in source (insertion)
order: each placeholder string paired with the raw dict value. The
`lead_id` entry already carries `str(lead_data.get("lead_id", ""))` and the
`full_name` entry the stripped f-string concatenation, exactly as in the
source. -/
def placeholderPairs (d : LeadData) : List (String × PyVal) :=
  [ ("\x7b\x7bfirst_name\x7d\x7d", d.first_name.getOrEmpty),
    ("\x7b\x7blast_name\x7d\x7d", d.last_name.getOrEmpty),
    ("\x7b\x7bemail\x7d\x7d", d.email.getOrEmpty),
    ("\x7b\x7bphone\x7d\x7d", d.phone.getOrEmpty),
    ("\x7b\x7baddress\x7d\x7d", d.address.getOrEmpty),
    ("\x7b\x7bproperty_type\x7d\x7d", d.property_type.getOrEmpty),
    ("\x7b\x7bestimated_value\x7d\x7d", d.estimated_value.getOrEmpty),
    ("\x7b\x7blead_id\x7d\x7d", .str d.lead_id.getOrEmpty.pyStr),
    ("\x7b\x7bfull_name\x7d\x7d",
      .str (pyStrip (d.first_name.getOrEmpty.pyStr ++ " " ++ d.last_name.getOrEmpty.pyStr))) ]

/-- The replacement text of one dict entry:
`str(value) if value else ""`. -/
def renderVal (v : PyVal) : String :=
  if v.truthy then v.pyStr else ""

/-- `EmailService.personalize_template`: fold
`result = result.replace(placeholder, str(value) if value else "")` over the
dict entries in insertion order. -/
def personalize_template (template : String) (d : LeadData) : String :=
  (placeholderPairs d).foldl (fun r pv => pyReplace r pv.1 (renderVal pv.2)) template

/-! ## Dispatch backend and retrying send (`EmailService.send_campaign_email`) -/

/-- Normalized result of one `EmailService.send_email` call: the mock path
always succeeds with a fresh id; the SendGrid path succeeds with the
provider message id or catches the exception and reports its text. -/
inductive SendResult where
  | success (message_id : String)
  | failure (error : String)
deriving Repr, DecidableEq

/-- Whether the result dict has `success: True`. -/
def SendResult.isSuccess : SendResult → Bool
  | .success _ => true
  | .failure _ => false

/-- The `for attempt in range(1, max_retries + 1)` retry loop of
`send_campaign_email`, abstracted over the backend (attempt number ↦ result
of that `send_email` call). Returns the loop's final `last_result`, the
number of provider calls made, and the list of backoff sleeps (seconds)
performed, in order. The fuel-0 case models `max_retries = 0`, where the
Python loop never runs and `last_result` stays the empty dict (whose
`get("success")` is falsy); it is unreachable for the default
`max_retries = 3`. -/
def retryLoop (backend : Nat → SendResult) : Nat → Nat → SendResult × Nat × List Nat
  | _, 0 => (.failure "", 0, [])
  | attempt, 1 => (backend attempt, 1, [])
  | attempt, fuel + 2 =>
    match backend attempt with
    | .success mid => (.success mid, 1, [])
    | .failure _ =>
      let r := retryLoop backend (attempt + 1) (fuel + 1)
      (r.1, r.2.1 + 1, 2 ^ (attempt - 1) :: r.2.2)

/-- The `EmailSequence` row fields touched by the dispatch path (the
DeliveryRecord of the spec). `sent_at_set` abstracts the `sent_at`
timestamp (set or still null). -/
structure EmailSequenceRec where
  status : String
  sendgrid_message_id : Option String
  sent_at_set : Bool
  bounce_reason : Option String
  email_subject : String
  email_body : String
deriving Repr, DecidableEq

/-- `EmailService._persist_message_id`, in the (always taken in-batch) branch
where the sequence row is found: store the message id, advance the status to
`sent`, stamp the sent timestamp. -/
def persist_message_id (seq : EmailSequenceRec) (message_id : String) : EmailSequenceRec :=
  { seq with sendgrid_message_id := some message_id, status := "sent", sent_at_set := true }

/-- The dict returned by `send_campaign_email`, restricted to the keys its
callers read: `success`, `message_id`, `error`, `skipped_daily_limit`
(`none` / `false` model an absent key). -/
structure SendOutcome where
  success : Bool
  message_id : Option String
  error : Option String
  skipped_daily_limit : Bool
deriving Repr, DecidableEq

/-- The error text of the daily-limit skip branch. -/
def limitMsg (limit : Int) : String :=
  "Daily send limit reached (" ++ toString limit ++
    "/day). Increase SENDGRID_DAILY_SEND_LIMIT in .env or wait until tomorrow UTC."

/-- Everything one `send_campaign_email` call produces: its returned dict,
the limiter state after the call, the sequence row after the call, the
number of provider send attempts made, and the backoff sleeps performed. -/
structure CampaignSendRun where
  outcome : SendOutcome
  limiter : LimiterState
  seq : EmailSequenceRec
  calls : Nat
  sleeps : List Nat
deriving Repr, DecidableEq

/-- `EmailService.send_campaign_email`: consult the limiter once; if sending
is not allowed, return the skip dict without touching the backend; otherwise
run the retry loop, and on a successful final result record the send and
persist the message id (the batch always passes a truthy `sequence_id` and
`db`, so the persist branch is always taken on success). -/
def send_campaign_email (limit : Int) (today : Nat) (backend : Nat → SendResult)
    (max_retries : Nat) (lim : LimiterState) (seq : EmailSequenceRec) : CampaignSendRun :=
  let cs := can_send limit lim today
  if !cs.1 then
    { outcome := { success := false, message_id := none,
                   error := some (limitMsg limit), skipped_daily_limit := true },
      limiter := cs.2, seq := seq, calls := 0, sleeps := [] }
  else
    let r := retryLoop backend 1 max_retries
    match r.1 with
    | .success mid =>
        { outcome := { success := true, message_id := some mid,
                       error := none, skipped_daily_limit := false },
          limiter := record_send cs.2 today,
          seq := persist_message_id seq mid,
          calls := r.2.1, sleeps := r.2.2 }
    | .failure e =>
        { outcome := { success := false, message_id := none,
                       error := some e, skipped_daily_limit := false },
          limiter := cs.2, seq := seq, calls := r.2.1, sleeps := r.2.2 }

/-! ## Campaign dispatch loop (`start_campaign` in `routers/campaigns.py`) -/

/-- The fields of a `Lead` row the dispatch loop reads and writes. -/
structure Lead where
  id : Nat
  first_name : String
  last_name : Option String
  email : String
  phone : Option String
  address : Option String
  property_type : Option String
  estimated_value : Option String
  status : String
deriving Repr, DecidableEq

/-- Python `x or ""` on a nullable string column. -/
def orEmpty : Option String → String
  | none => ""
  | some s => s

/-- The `lead_data` dict built by the loop body: every key is present and
holds a string (`or ""` defaults the nullable columns; `lead_id` holds the
integer id, stringified later by `personalize_template`). -/
def leadToData (lead : Lead) : LeadData :=
  { lead_id := .str (toString lead.id),
    first_name := .str lead.first_name,
    last_name := .str (orEmpty lead.last_name),
    email := .str lead.email,
    phone := .str (orEmpty lead.phone),
    address := .str (orEmpty lead.address),
    property_type := .str (orEmpty lead.property_type),
    estimated_value := .str (orEmpty lead.estimated_value) }

/-- One entry of the batch's `results["details"]` list. -/
structure Detail where
  lead_id : Nat
  email : String
  success : Bool
  message_id : Option String
  error : Option String
deriving Repr, DecidableEq

/-- Everything the per-lead loop body produces (`outcome` is the
`send_result` dict the loop body inspects). -/
structure LeadStepResult where
  lead : Lead
  seq : EmailSequenceRec
  detail : Detail
  outcome : SendOutcome
  success : Bool
  limiter : LimiterState
  calls : Nat
deriving Repr, DecidableEq

/-- The body of `start_campaign`'s `for lead in leads` loop: personalize,
create the sequence row in `pending` status, call `send_campaign_email`
(default `max_retries = 3`), then on failure mark the row `bounced` with the
truncated error reason, and on success advance the lead to `contacted`. -/
def processLead (limit : Int) (today : Nat) (backend : Nat → SendResult)
    (subject body : String) (lead : Lead) (lim : LimiterState) : LeadStepResult :=
  let d := leadToData lead
  let seq0 : EmailSequenceRec :=
    { status := "pending", sendgrid_message_id := none, sent_at_set := false,
      bounce_reason := none,
      email_subject := personalize_template subject d,
      email_body := personalize_template body d }
  let run := send_campaign_email limit today backend 3 lim seq0
  let seq1 :=
    if run.outcome.success then run.seq
    else { run.seq with
             status := "bounced",
             bounce_reason := some (pyTake (run.outcome.error.getD "Send failed") 255) }
  let lead1 := if run.outcome.success then { lead with status := "contacted" } else lead
  { lead := lead1, seq := seq1,
    detail := { lead_id := lead.id, email := lead.email,
                success := run.outcome.success,
                message_id := run.outcome.message_id,
                error := run.outcome.error },
    outcome := run.outcome,
    success := run.outcome.success, limiter := run.limiter, calls := run.calls }

/-- The accumulated `results` of a batch, plus the final limiter state, the
sequence rows and lead rows in lead order, and the total provider calls. -/
structure BatchResults where
  emails_sent : Nat
  emails_failed : Nat
  details : List Detail
  seqs : List EmailSequenceRec
  leads : List Lead
  limiter : LimiterState
  total_calls : Nat
deriving Repr, DecidableEq

/-- The full `start_campaign` dispatch loop over a lead list; the backend is
indexed by lead position, then by attempt number. -/
def runBatch (limit : Int) (today : Nat) (backend : Nat → Nat → SendResult)
    (subject body : String) : List Lead → Nat → LimiterState → BatchResults
  | [], _, lim =>
      { emails_sent := 0, emails_failed := 0, details := [], seqs := [],
        leads := [], limiter := lim, total_calls := 0 }
  | lead :: rest, i, lim =>
      let step := processLead limit today (backend i) subject body lead lim
      let restRes := runBatch limit today backend subject body rest (i + 1) step.limiter
      { emails_sent := (if step.success then 1 else 0) + restRes.emails_sent,
        emails_failed := (if step.success then 0 else 1) + restRes.emails_failed,
        details := step.detail :: restRes.details,
        seqs := step.seq :: restRes.seqs,
        leads := step.lead :: restRes.leads,
        limiter := restRes.limiter,
        total_calls := step.calls + restRes.total_calls }

/-! ## AI chatbot service (`AIService` in `utils/ai_service.py`) -/

/-- The slots of `lead_context` that `generate_chatbot_reply` and the
post-response part of `_openai_chatbot_json` read. -/
structure LeadContext where
  first_name : Option String
  lead_score : Option Int
deriving Repr, DecidableEq

/-- One chat message dict (`role` / `content`). -/
structure Message where
  role : String
  content : String
deriving Repr, DecidableEq

/-- The normalized reply every chatbot path returns:
`{reply, next_action: {type, reason}, updated_lead_score}`. -/
structure NextAction where
  type : String
  reason : Option String
deriving Repr, DecidableEq

structure ChatReply where
  reply : String
  next_action : NextAction
  updated_lead_score : Option Int
deriving Repr, DecidableEq

/-- Abstract view of a successfully `json.loads`-parsed JSON object, reduced
to the reads `_openai_chatbot_json` performs on it: `reply_str` is
`str(parsed.get("reply") or "")`, `next_action_type` is
`(parsed.get("next_action") or \x7b\x7d).get("type")` (a non-string value
behaves like a string outside the allowed set), `reason_str` is
`str((parsed.get("next_action") or \x7b\x7d).get("reason") or "")`, and the
score pair models presence and value of the `updated_lead_score` key. -/
structure ParsedReply where
  reply_str : String
  next_action_type : Option String
  reason_str : String
  score_present : Bool
  score_value : Option Int
deriving Repr, DecidableEq

/-- Outcome of the chat-completion provider call inside
`_openai_chatbot_json`: the call raises, or returns message content whose
`_parse_ai_json` outcome is `parsed` (`json.loads` is abstracted: `parsed`
is the parse result of the stripped content). -/
inductive ProviderOutcome where
  | raises
  | returns (content : Option String) (parsed : Option ParsedReply)
deriving Repr, DecidableEq

/-- Python `sub in s` on strings. -/
def pyContains (sub s : String) : Bool :=
  occurs sub.data s.data

/-- `AIService._safe_next_action_type`: keep the value only when it belongs
to the closed allowed set, else `"continue"` (a `None` value is also mapped
to `"continue"`). -/
def safe_next_action_type (value : Option String) : String :=
  match value with
  | some v =>
      if v = "continue" ∨ v = "book_meeting" ∨ v = "escalate_human" ∨ v = "end"
      then v else "continue"
  | none => "continue"

/-- The scan `for msg in reversed(messages): if msg.get("role") == "user"`:
content of the last user message, defaulting to `""`. -/
def lastUserMessage (messages : List Message) : String :=
  match messages.reverse.find? (fun m => m.role == "user") with
  | some m => m.content
  | none => ""

/-- Python `(lead_context.get("first_name") or "there")`. -/
def firstNameOr : Option String → String
  | none => "there"
  | some s => if s = "" then "there" else s

/-- Python `(lead_context.get("lead_score") or 50)` (an explicit score of 0
is falsy and also defaults to 50). -/
def scoreOr50 : Option Int → Int
  | none => 50
  | some n => if n = 0 then 50 else n

/-- The post-response part of `AIService._openai_chatbot_json`: strip the
content, and either wrap a non-JSON response in a safe `continue` dict or
normalize the parsed object through `_safe_next_action_type`. -/
def openai_chatbot_json (ctx : LeadContext) (content : Option String)
    (parsed : Option ParsedReply) : ChatReply :=
  let text := pyStrip (orEmpty content)
  match parsed with
  | none =>
      { reply := if text = ""
          then "Thanks — could you share your biggest outreach challenge right now?"
          else text,
        next_action := { type := "continue",
                         reason := some "LLM returned non-JSON; default to continue." },
        updated_lead_score := ctx.lead_score }
  | some p =>
      let rs := pyStrip p.reply_str
      let reasonS := pyStrip p.reason_str
      { reply := if rs = ""
          then "What’s your biggest challenge with outreach right now?"
          else rs,
        next_action := { type := safe_next_action_type p.next_action_type,
                         reason := if reasonS = "" then none else some reasonS },
        updated_lead_score := if p.score_present then p.score_value else ctx.lead_score }

/-- The demo-mode rule engine of `generate_chatbot_reply` (no OpenAI
configured): the pricing intent only rewrites `base_reply` and falls through
to the final `continue` return; the other intents return directly. -/
def demoReply (ctx : LeadContext) (normalized first_name : String) : ChatReply :=
  if pyContains "price" normalized || pyContains "pricing" normalized
      || pyContains "$" normalized then
    { reply := "Great question on pricing. Before that, how many people on your team would use this outreach system?",
      next_action := { type := "continue",
                       reason := some "Demo mode fallback reply – keep conversation going." },
      updated_lead_score := ctx.lead_score }
  else if pyContains "demo" normalized || pyContains "call" normalized
      || pyContains "meeting" normalized then
    { reply := "Sounds good. I can help arrange a quick demo. Do you prefer earlier this week or later?",
      next_action := { type := "book_meeting",
                       reason := some "User mentioned demo/call/meeting – suggest booking." },
      updated_lead_score := some (max (scoreOr50 ctx.lead_score + 10) 0) }
  else if pyContains "frustrated" normalized || pyContains "angry" normalized
      || pyContains "upset" normalized || pyContains "this is not helpful" normalized then
    { reply := "I’m sorry this hasn’t been helpful so far. I can connect you with a human specialist if you’d like.",
      next_action := { type := "escalate_human",
                       reason := some "Frustration detected – recommend human handoff." },
      updated_lead_score := ctx.lead_score }
  else if pyContains "thanks, that's all" normalized
      || pyContains "thank you, that's all" normalized
      || pyContains "no more questions" normalized then
    { reply := "Glad I could help. If anything else comes up, you can reach out here again anytime.",
      next_action := { type := "end",
                       reason := some "User indicated conversation is finished." },
      updated_lead_score := ctx.lead_score }
  else
    { reply := "Hi " ++ first_name ++ ", I'm here to answer questions about our outreach system. Could you tell me a bit about your biggest challenge with booking meetings right now?",
      next_action := { type := "continue",
                       reason := some "Demo mode fallback reply – keep conversation going." },
      updated_lead_score := ctx.lead_score }

/-- The deterministic fallback block of `generate_chatbot_reply`, reached
when OpenAI is configured but the client is missing or the call raised. -/
def openaiFallback (ctx : LeadContext) (normalized first_name : String) : ChatReply :=
  if pyContains "demo" normalized || pyContains "call" normalized
      || pyContains "meeting" normalized then
    { reply := "Happy to set something up. Would mid-week work better, or are you free earlier?",
      next_action := { type := "book_meeting",
                       reason := some "User requested demo/call – suggest booking." },
      updated_lead_score := some (max (scoreOr50 ctx.lead_score + 10) 0) }
  else if pyContains "price" normalized || pyContains "pricing" normalized
      || pyContains "$" normalized then
    { reply := "Pricing depends a bit on team size and volume. Roughly how many people would use this day to day?",
      next_action := { type := "continue",
                       reason := some "Pricing question – ask qualifying team-size question." },
      updated_lead_score := ctx.lead_score }
  else
    { reply := "Hi " ++ first_name ++ ", thanks for reaching out. To make sure this fits, what are you currently using for outreach?",
      next_action := { type := "continue",
                       reason := some "Standard qualification question." },
      updated_lead_score := ctx.lead_score }

/-- `AIService.generate_chatbot_reply`: demo rules when OpenAI is not
configured; otherwise try the OpenAI call (`provider` is its outcome; an
exception is swallowed by the bare `except` and control falls through to the
deterministic fallback block, also reached when no client was initialized). -/
def generate_chatbot_reply (openai_configured client_initialized : Bool)
    (provider : ProviderOutcome) (ctx : LeadContext)
    (messages : List Message) : ChatReply :=
  let normalized := (lastUserMessage messages).toLower
  let first_name := firstNameOr ctx.first_name
  if !openai_configured then
    demoReply ctx normalized first_name
  else if client_initialized then
    match provider with
    | .returns content parsed => openai_chatbot_json ctx content parsed
    | .raises => openaiFallback ctx normalized first_name
  else
    openaiFallback ctx normalized first_name

/-! ## Helper lemmas: string replacement -/

theorem isPrefixOf_self (l : List Char) : l.isPrefixOf l = true := by
  induction l with
  | nil => rfl
  | cons c t ih => simp [List.isPrefixOf, ih]

theorem mem_of_isPrefixOf {p l : List Char} {a : Char}
    (h : p.isPrefixOf l = true) (ha : a ∈ p) : a ∈ l := by
  induction p generalizing l with
  | nil => cases ha
  | cons c t ih =>
    cases l with
    | nil => simp [List.isPrefixOf] at h
    | cons b bs =>
      simp only [List.isPrefixOf, Bool.and_eq_true, beq_iff_eq] at h
      rcases List.mem_cons.mp ha with rfl | hm
      · exact h.1 ▸ List.mem_cons_self _ _
      · exact List.mem_cons_of_mem _ (ih h.2 hm)

theorem replaceAllF_nil (pat rep : List Char) (fuel : Nat) :
    replaceAllF pat rep fuel [] = [] := by
  cases fuel <;> rfl

theorem replaceAllF_no_occ (pat rep : List Char) (fuel : Nat) :
    ∀ s, occurs pat s = false → replaceAllF pat rep fuel s = s := by
  induction fuel with
  | zero => intro s _; rfl
  | succ n ih =>
    intro s h
    cases s with
    | nil => rfl
    | cons c rest =>
      have h' : (pat.isPrefixOf (c :: rest) || occurs pat rest) = false := h
      have h1 : pat.isPrefixOf (c :: rest) = false := by
        cases hp : pat.isPrefixOf (c :: rest)
        · rfl
        · rw [hp] at h'; simp at h'
      have h2 : occurs pat rest = false := by
        rw [h1] at h'; simpa using h'
      show (if pat ≠ [] ∧ pat.isPrefixOf (c :: rest) then _ else _) = c :: rest
      rw [if_neg (by rintro ⟨-, hp⟩; rw [h1] at hp; exact absurd hp (by simp))]
      exact congrArg (c :: ·) (ih rest h2)

theorem pyReplace_no_occ (s pat rep : String)
    (h : occurs pat.data s.data = false) : pyReplace s pat rep = s := by
  unfold pyReplace replaceAll
  rw [replaceAllF_no_occ _ _ _ _ h]

theorem pyReplace_exact (s pat rep : String)
    (ht : s.data = pat.data) (hne : pat.data ≠ []) : pyReplace s pat rep = rep := by
  unfold pyReplace replaceAll
  rw [ht]
  obtain ⟨c, t, hct⟩ : ∃ c t, pat.data = c :: t := by
    cases hp : pat.data with
    | nil => exact absurd hp hne
    | cons c t => exact ⟨c, t, rfl⟩
  rw [hct]
  show String.mk (if (c :: t) ≠ [] ∧ (c :: t).isPrefixOf (c :: t) then
      rep.data ++ replaceAllF (c :: t) rep.data ((c :: t).length - 1)
        (t.drop ((c :: t).length - 1))
    else _) = rep
  rw [if_pos ⟨by simp, isPrefixOf_self _⟩]
  rw [show ((c :: t : List Char).length - 1) = t.length by simp]
  rw [List.drop_length, replaceAllF_nil, List.append_nil]

theorem occurs_eq_false_of_not_mem {b : Char} {pat : List Char} (hb : b ∈ pat) :
    ∀ {s : List Char}, b ∉ s → occurs pat s = false := by
  intro s
  induction s with
  | nil => intro _; rfl
  | cons c rest ih =>
    intro hs
    have h1 : pat.isPrefixOf (c :: rest) = false := by
      cases hp : pat.isPrefixOf (c :: rest)
      · rfl
      · exact absurd (mem_of_isPrefixOf hp hb) hs
    show (pat.isPrefixOf (c :: rest) || occurs pat rest) = false
    rw [h1, Bool.false_or]
    exact ih (fun hm => hs (List.mem_cons_of_mem _ hm))

theorem foldl_replace_no_occ (pairs : List (String × PyVal)) (t : String)
    (h : ∀ p ∈ pairs.map Prod.fst, occurs p.data t.data = false) :
    pairs.foldl (fun r pv => pyReplace r pv.1 (renderVal pv.2)) t = t := by
  induction pairs with
  | nil => rfl
  | cons pv rest ih =>
    simp only [List.foldl_cons]
    rw [pyReplace_no_occ _ _ _ (h pv.1 (by simp))]
    exact ih (fun p hp => h p (by simp [hp]))

theorem foldl_replace_hit (pre post : List (String × PyVal)) (pat : String)
    (v : PyVal) (t : String)
    (hpre : ∀ p ∈ pre.map Prod.fst, occurs p.data t.data = false)
    (ht : t.data = pat.data) (hne : pat.data ≠ [])
    (hpost : ∀ p ∈ post.map Prod.fst, occurs p.data (renderVal v).data = false) :
    (pre ++ (pat, v) :: post).foldl (fun r pv => pyReplace r pv.1 (renderVal pv.2)) t
      = renderVal v := by
  induction pre with
  | nil =>
    simp only [List.nil_append, List.foldl_cons]
    rw [pyReplace_exact _ _ _ ht hne]
    exact foldl_replace_no_occ post _ hpost
  | cons q rest ih =>
    simp only [List.cons_append, List.foldl_cons]
    rw [pyReplace_no_occ _ _ _ (hpre q.1 (by simp))]
    exact ih (fun p hp => hpre p (by simp [hp]))

theorem renderVal_str (s : String) : renderVal (.str s) = s := by
  by_cases h : s.data = []
  · have hs : s = "" := by cases s; simp_all
    subst hs; rfl
  · have ht : (PyVal.str s).truthy = true := by
      simp [PyVal.truthy, h]
    simp [renderVal, ht, PyVal.pyStr]

/-- Brace-freedom of a dict value: a present string contains no `\x7b`. -/
def PyVal.bracesFree : PyVal → Prop
  | .str s => '\x7b' ∉ s.data
  | _ => True

instance : DecidablePred PyVal.bracesFree := fun v =>
  match v with
  | .str s => inferInstanceAs (Decidable ('\x7b' ∉ s.data))
  | .absent => inferInstanceAs (Decidable True)
  | .null => inferInstanceAs (Decidable True)

theorem renderVal_bracesFree {v : PyVal} (h : v.bracesFree) :
    '\x7b' ∉ (renderVal v).data := by
  cases v with
  | absent => simp [renderVal, PyVal.truthy]
  | null => simp [renderVal, PyVal.truthy]
  | str s => rw [renderVal_str]; exact h

theorem getOrEmpty_pyStr_bracesFree {v : PyVal} (h : v.bracesFree) :
    '\x7b' ∉ (v.getOrEmpty.pyStr).data := by
  cases v with
  | absent => simp [PyVal.getOrEmpty, PyVal.pyStr]
  | null => intro hm; exact absurd hm (by decide)
  | str s => exact h

/-- The value a single supported non-computed placeholder renders to: the
attribute's string value, or `""` when the attribute is absent or null. -/
def renderedAttr : PyVal → String
  | .str s => s
  | _ => ""

theorem renderVal_getOrEmpty (v : PyVal) :
    renderVal v.getOrEmpty = renderedAttr v := by
  cases v with
  | absent => exact renderVal_str ""
  | null => rfl
  | str s => exact renderVal_str s

/-! ## Helper lemmas: limiter and retrying send -/

theorem can_send_snd (limit : Int) (s : LimiterState) (today : Nat) :
    (can_send limit s today).2 = resetIfNewDay s today := by
  unfold can_send
  split <;> rfl

theorem resetIfNewDay_idem (s : LimiterState) (today : Nat) :
    resetIfNewDay (resetIfNewDay s today) today = resetIfNewDay s today := by
  by_cases hd : today = s.day <;> simp [resetIfNewDay, hd]

theorem retryLoop_three (b : Nat → SendResult) :
    retryLoop b 1 3 =
      match b 1 with
      | .success m => (.success m, 1, [])
      | .failure _ =>
        match b 2 with
        | .success m => (.success m, 2, [1])
        | .failure _ => (b 3, 3, [1, 2]) := by
  cases h1 : b 1 <;> cases h2 : b 2 <;> simp [retryLoop, h1, h2]

theorem send_campaign_email_skip (limit : Int) (today : Nat) (b : Nat → SendResult)
    (mr : Nat) (lim : LimiterState) (seq : EmailSequenceRec)
    (hc : (can_send limit lim today).1 = false) :
    send_campaign_email limit today b mr lim seq =
      { outcome := { success := false, message_id := none,
                     error := some (limitMsg limit), skipped_daily_limit := true },
        limiter := resetIfNewDay lim today, seq := seq, calls := 0, sleeps := [] } := by
  unfold send_campaign_email
  simp [hc, can_send_snd]

theorem send_campaign_email_success (limit : Int) (today : Nat) (b : Nat → SendResult)
    (mr : Nat) (lim : LimiterState) (seq : EmailSequenceRec) (mid : String)
    (hc : (can_send limit lim today).1 = true)
    (hr : (retryLoop b 1 mr).1 = .success mid) :
    send_campaign_email limit today b mr lim seq =
      { outcome := { success := true, message_id := some mid,
                     error := none, skipped_daily_limit := false },
        limiter := record_send (resetIfNewDay lim today) today,
        seq := persist_message_id seq mid,
        calls := (retryLoop b 1 mr).2.1, sleeps := (retryLoop b 1 mr).2.2 } := by
  unfold send_campaign_email
  simp [hc, can_send_snd, hr]

theorem send_campaign_email_failure (limit : Int) (today : Nat) (b : Nat → SendResult)
    (mr : Nat) (lim : LimiterState) (seq : EmailSequenceRec) (e : String)
    (hc : (can_send limit lim today).1 = true)
    (hr : (retryLoop b 1 mr).1 = .failure e) :
    send_campaign_email limit today b mr lim seq =
      { outcome := { success := false, message_id := none,
                     error := some e, skipped_daily_limit := false },
        limiter := resetIfNewDay lim today, seq := seq,
        calls := (retryLoop b 1 mr).2.1, sleeps := (retryLoop b 1 mr).2.2 } := by
  unfold send_campaign_email
  simp [hc, can_send_snd, hr]

/-! ## Claim C4 -/

/-- C4: `can_send()` is true whenever the configured daily limit is ≤ 0,
for every limiter state (hence regardless of prior `record_send()` calls);
for a positive limit it is true iff the current UTC day's count — taken as 0
when the wall-clock day has advanced past the stored day marker — is
strictly below the limit. -/
theorem C4_can_send_spec (limit : Int) (s : LimiterState) (today : Nat) :
    (limit ≤ 0 → (can_send limit s today).1 = true) ∧
    (0 < limit →
      ((can_send limit s today).1 = true ↔
        (if today = s.day then (s.count : Int) else 0) < limit)) := by
  constructor
  · intro h
    simp [can_send, h]
  · intro h
    have h' : ¬ limit ≤ 0 := by omega
    by_cases hd : today = s.day <;>
      simp [can_send, resetIfNewDay, hd, h']

theorem C4_can_send_spec_witness :
    (can_send 0 ⟨5, 3⟩ 3).1 = true ∧ (can_send 2 ⟨1, 3⟩ 3).1 = true := by
  constructor
  · exact (C4_can_send_spec 0 ⟨5, 3⟩ 3).1 (by decide)
  · exact ((C4_can_send_spec 2 ⟨1, 3⟩ 3).2 (by decide)).mpr (by decide)

/-! ## Claim C10 -/

/-- C10: `record_send()` increments the current day's count unconditionally —
it performs no limit check, so it still increments when `can_send()` is
false, and the stored count can exceed a positive configured limit. -/
theorem C10_record_send_unconditional (limit : Int) (s : LimiterState) (today : Nat) :
    (record_send s today).count = (resetIfNewDay s today).count + 1 ∧
    ((can_send limit s today).1 = false →
      (record_send s today).count = (resetIfNewDay s today).count + 1) ∧
    (((resetIfNewDay s today).count : Int) = limit →
      limit < ((record_send s today).count : Int)) := by
  refine ⟨rfl, fun _ => rfl, fun h => ?_⟩
  have hc : (record_send s today).count = (resetIfNewDay s today).count + 1 := rfl
  rw [hc]
  push_cast
  omega

theorem C10_record_send_unconditional_witness :
    (record_send ⟨2, 5⟩ 5).count = (resetIfNewDay ⟨2, 5⟩ 5).count + 1 ∧
    (2 : Int) < ((record_send ⟨2, 5⟩ 5).count : Int) := by
  refine ⟨(C10_record_send_unconditional 2 ⟨2, 5⟩ 5).2.1 (by decide), ?_⟩
  exact (C10_record_send_unconditional 2 ⟨2, 5⟩ 5).2.2 (by decide)

/-! ## Claim C2 -/

/-- C2: with the default `max_retries = 3` and the daily limit not reached,
the backend is attempted at most 3 times and the loop stops at the first
successful attempt; the backoff sleeps performed are exactly
`2^(attempt-1)` seconds after each failed non-final attempt (so none after
the final attempt); a backend failing twice then succeeding on the third
attempt incurs sleeps `[1, 2]` totalling 3 seconds and ends with a
successful result and the record's status advanced to `sent`. -/
theorem C2_retry_backoff (limit : Int) (today : Nat) (backend : Nat → SendResult)
    (lim : LimiterState) (seq : EmailSequenceRec)
    (hc : (can_send limit lim today).1 = true) :
    (send_campaign_email limit today backend 3 lim seq).calls ≤ 3 ∧
    (∀ k, 1 ≤ k → k ≤ 3 → (backend k).isSuccess = true →
      (∀ j, 1 ≤ j → j < k → (backend j).isSuccess = false) →
      (send_campaign_email limit today backend 3 lim seq).calls = k ∧
      (send_campaign_email limit today backend 3 lim seq).outcome.success = true) ∧
    ((send_campaign_email limit today backend 3 lim seq).sleeps =
      (List.range ((send_campaign_email limit today backend 3 lim seq).calls - 1)).map
        (fun i => 2 ^ i)) ∧
    (∀ e₁ e₂ m, backend 1 = .failure e₁ → backend 2 = .failure e₂ →
      backend 3 = .success m →
      (send_campaign_email limit today backend 3 lim seq).sleeps = [1, 2] ∧
      (send_campaign_email limit today backend 3 lim seq).sleeps.sum = 3 ∧
      (send_campaign_email limit today backend 3 lim seq).outcome.success = true ∧
      (send_campaign_email limit today backend 3 lim seq).seq.status = "sent") := by
  have hr3 := retryLoop_three backend
  cases h1 : backend 1 with
  | success m =>
    rw [h1] at hr3
    have hfst : (retryLoop backend 1 3).1 = .success m := by rw [hr3]
    have hrun := send_campaign_email_success limit today backend 3 lim seq m hc hfst
    rw [hrun, hr3]
    refine ⟨by simp, ?_, by rfl, ?_⟩
    · intro k hk1 hk3 _ hprev
      interval_cases k
      · exact ⟨rfl, rfl⟩
      · have hj := hprev 1 le_rfl (by norm_num)
        rw [h1] at hj; simp [SendResult.isSuccess] at hj
      · have hj := hprev 1 le_rfl (by norm_num)
        rw [h1] at hj; simp [SendResult.isSuccess] at hj
    · intro e₁ e₂ m' he1 _ _
      simp at he1
  | failure e₁ =>
    cases h2 : backend 2 with
    | success m =>
      rw [h1, h2] at hr3
      have hfst : (retryLoop backend 1 3).1 = .success m := by rw [hr3]
      have hrun := send_campaign_email_success limit today backend 3 lim seq m hc hfst
      rw [hrun, hr3]
      refine ⟨by simp, ?_, by rfl, ?_⟩
      · intro k hk1 hk3 hks hprev
        interval_cases k
        · rw [h1] at hks; simp [SendResult.isSuccess] at hks
        · exact ⟨rfl, rfl⟩
        · have hj := hprev 2 (by norm_num) (by norm_num)
          rw [h2] at hj; simp [SendResult.isSuccess] at hj
      · intro a b' m' _ he2 _
        simp at he2
    | failure e₂ =>
      rw [h1, h2] at hr3
      cases h3 : backend 3 with
      | success m =>
        rw [h3] at hr3
        have hfst : (retryLoop backend 1 3).1 = .success m := by rw [hr3]
        have hrun := send_campaign_email_success limit today backend 3 lim seq m hc hfst
        rw [hrun, hr3]
        refine ⟨by simp, ?_, by rfl, ?_⟩
        · intro k hk1 hk3 hks hprev
          interval_cases k
          · rw [h1] at hks; simp [SendResult.isSuccess] at hks
          · rw [h2] at hks; simp [SendResult.isSuccess] at hks
          · exact ⟨rfl, rfl⟩
        · intro a b' m' _ _ _
          exact ⟨rfl, rfl, rfl, rfl⟩
      | failure e₃ =>
        rw [h3] at hr3
        have hfst : (retryLoop backend 1 3).1 = .failure e₃ := by rw [hr3]
        have hrun := send_campaign_email_failure limit today backend 3 lim seq e₃ hc hfst
        rw [hrun, hr3]
        refine ⟨by simp, ?_, by rfl, ?_⟩
        · intro k hk1 hk3 hks hprev
          interval_cases k
          · rw [h1] at hks; simp [SendResult.isSuccess] at hks
          · rw [h2] at hks; simp [SendResult.isSuccess] at hks
          · rw [h3] at hks; simp [SendResult.isSuccess] at hks
        · intro a b' m' _ _ he3
          simp at he3

theorem C2_retry_backoff_witness :
    (send_campaign_email 0 0
        (fun k => if k = 3 then .success "m" else .failure "e") 3 ⟨0, 0⟩
        ⟨"pending", none, false, none, "S", "B"⟩).sleeps = [1, 2] ∧
    (send_campaign_email 0 0
        (fun k => if k = 3 then .success "m" else .failure "e") 3 ⟨0, 0⟩
        ⟨"pending", none, false, none, "S", "B"⟩).sleeps.sum = 3 ∧
    (send_campaign_email 0 0
        (fun k => if k = 3 then .success "m" else .failure "e") 3 ⟨0, 0⟩
        ⟨"pending", none, false, none, "S", "B"⟩).outcome.success = true ∧
    (send_campaign_email 0 0
        (fun k => if k = 3 then .success "m" else .failure "e") 3 ⟨0, 0⟩
        ⟨"pending", none, false, none, "S", "B"⟩).seq.status = "sent" :=
  (C2_retry_backoff 0 0 (fun k => if k = 3 then .success "m" else .failure "e")
      ⟨0, 0⟩ ⟨"pending", none, false, none, "S", "B"⟩ (by decide)).2.2.2
    "e" "e" "m" rfl rfl rfl

/-! ## Claim C3 -/

/-- C3: for a retry sequence that is not skipped by the daily limit, if some
of the 3 attempts succeeds the limiter's counter is incremented exactly once
for the whole sequence, and if all attempts fail it is not incremented at
all. -/
theorem C3_limiter_once (limit : Int) (today : Nat) (backend : Nat → SendResult)
    (lim : LimiterState) (seq : EmailSequenceRec)
    (hc : (can_send limit lim today).1 = true) :
    ((∃ k, 1 ≤ k ∧ k ≤ 3 ∧ (backend k).isSuccess = true) →
      (send_campaign_email limit today backend 3 lim seq).outcome.success = true ∧
      (send_campaign_email limit today backend 3 lim seq).limiter.count
        = (resetIfNewDay lim today).count + 1) ∧
    ((∀ k, 1 ≤ k → k ≤ 3 → (backend k).isSuccess = false) →
      (send_campaign_email limit today backend 3 lim seq).outcome.success = false ∧
      (send_campaign_email limit today backend 3 lim seq).limiter
        = resetIfNewDay lim today) := by
  have hr3 := retryLoop_three backend
  have hcount : ∀ mid,
      (send_campaign_email limit today backend 3 lim seq
          = { outcome := { success := true, message_id := some mid,
                           error := none, skipped_daily_limit := false },
              limiter := record_send (resetIfNewDay lim today) today,
              seq := persist_message_id seq mid,
              calls := (retryLoop backend 1 3).2.1,
              sleeps := (retryLoop backend 1 3).2.2 }) →
      (send_campaign_email limit today backend 3 lim seq).limiter.count
        = (resetIfNewDay lim today).count + 1 := by
    intro mid h
    rw [h]
    show (record_send (resetIfNewDay lim today) today).count
        = (resetIfNewDay lim today).count + 1
    unfold record_send
    rw [resetIfNewDay_idem]
  cases h1 : backend 1 with
  | success m =>
    rw [h1] at hr3
    have hfst : (retryLoop backend 1 3).1 = .success m := by rw [hr3]
    have hrun := send_campaign_email_success limit today backend 3 lim seq m hc hfst
    refine ⟨fun _ => ⟨by rw [hrun], hcount m hrun⟩, fun hall => ?_⟩
    have hj := hall 1 le_rfl (by norm_num)
    rw [h1] at hj; simp [SendResult.isSuccess] at hj
  | failure e₁ =>
    cases h2 : backend 2 with
    | success m =>
      rw [h1, h2] at hr3
      have hfst : (retryLoop backend 1 3).1 = .success m := by rw [hr3]
      have hrun := send_campaign_email_success limit today backend 3 lim seq m hc hfst
      refine ⟨fun _ => ⟨by rw [hrun], hcount m hrun⟩, fun hall => ?_⟩
      have hj := hall 2 (by norm_num) (by norm_num)
      rw [h2] at hj; simp [SendResult.isSuccess] at hj
    | failure e₂ =>
      rw [h1, h2] at hr3
      cases h3 : backend 3 with
      | success m =>
        rw [h3] at hr3
        have hfst : (retryLoop backend 1 3).1 = .success m := by rw [hr3]
        have hrun := send_campaign_email_success limit today backend 3 lim seq m hc hfst
        refine ⟨fun _ => ⟨by rw [hrun], hcount m hrun⟩, fun hall => ?_⟩
        have hj := hall 3 (by norm_num) (by norm_num)
        rw [h3] at hj; simp [SendResult.isSuccess] at hj
      | failure e₃ =>
        rw [h3] at hr3
        have hfst : (retryLoop backend 1 3).1 = .failure e₃ := by rw [hr3]
        have hrun := send_campaign_email_failure limit today backend 3 lim seq e₃ hc hfst
        refine ⟨fun hex => ?_, fun _ => ⟨by rw [hrun], by rw [hrun]⟩⟩
        obtain ⟨k, hk1, hk3, hks⟩ := hex
        interval_cases k
        · rw [h1] at hks; simp [SendResult.isSuccess] at hks
        · rw [h2] at hks; simp [SendResult.isSuccess] at hks
        · rw [h3] at hks; simp [SendResult.isSuccess] at hks

theorem C3_limiter_once_witness :
    (send_campaign_email 5 0 (fun _ => .success "m") 3 ⟨0, 0⟩
        ⟨"pending", none, false, none, "S", "B"⟩).outcome.success = true ∧
    (send_campaign_email 5 0 (fun _ => .success "m") 3 ⟨0, 0⟩
        ⟨"pending", none, false, none, "S", "B"⟩).limiter.count
      = (resetIfNewDay ⟨0, 0⟩ 0).count + 1 :=
  (C3_limiter_once 5 0 (fun _ => .success "m") ⟨0, 0⟩
      ⟨"pending", none, false, none, "S", "B"⟩ (by decide)).1
    ⟨1, le_rfl, by norm_num, rfl⟩

/-! ## Helper lemmas: campaign loop -/

theorem reset_eq_of_not_can_send {limit : Int} {lim : LimiterState} {today : Nat}
    (hpos : 0 < limit) (hf : (can_send limit lim today).1 = false) :
    resetIfNewDay lim today = lim := by
  by_cases hd : today = lim.day
  · simp [resetIfNewDay, hd]
  · have h0 : ¬ limit ≤ 0 := by omega
    have hT : (can_send limit lim today).1 = true := by
      simp [can_send, resetIfNewDay, hd, h0]
      exact hpos
    rw [hT] at hf
    simp at hf

theorem pyTake_length_le (s : String) (n : Nat) : (pyTake s n).length ≤ n := by
  have h : (pyTake s n).length = (s.data.take n).length := rfl
  rw [h, List.length_take]
  exact min_le_left n s.data.length

theorem pyTake_255_ne_empty {s : String} (h : s ≠ "") : pyTake s 255 ≠ "" := by
  intro habs
  apply h
  have hd : s.data.take 255 = [] := congrArg String.data habs
  rcases List.take_eq_nil_iff.mp hd with h0 | hnil
  · exact absurd h0 (by decide)
  · cases s; simp_all

/-! ## Claim C1 (corrected) -/

/-- C1 counterexample: a batch with daily limit 1 and a limiter already at
count 1 for the current day, against a backend that would always succeed.
The lead's send is skipped, yet the batch reports it as a failure: it is
counted in `emails_failed` and its delivery record is marked with the same
`bounced` failure status used for genuine failures — not as a distinct
skipped outcome. -/
theorem C1_counterexample :
    (runBatch 1 0 (fun _ _ => .success "m") "S" "B"
        [{ id := 7, first_name := "Ann", last_name := none, email := "a@x",
           phone := none, address := none, property_type := none,
           estimated_value := none, status := "uploaded" }] 0 ⟨1, 0⟩).emails_failed = 1 ∧
    (runBatch 1 0 (fun _ _ => .success "m") "S" "B"
        [{ id := 7, first_name := "Ann", last_name := none, email := "a@x",
           phone := none, address := none, property_type := none,
           estimated_value := none, status := "uploaded" }] 0 ⟨1, 0⟩).emails_sent = 0 ∧
    (runBatch 1 0 (fun _ _ => .success "m") "S" "B"
        [{ id := 7, first_name := "Ann", last_name := none, email := "a@x",
           phone := none, address := none, property_type := none,
           estimated_value := none, status := "uploaded" }] 0 ⟨1, 0⟩).seqs.map
      (fun s => s.status) = ["bounced"] := by
  decide

/-- C1 (amended): when the daily limit is positive and already reached as a
lead's send begins, the send is skipped — zero provider attempts (hence no
retries), the limiter state unchanged — and the send operation's returned
dict carries the distinct `skipped_daily_limit` flag (with `success` false
and the limit message as error); however the campaign batch reports this
outcome as a failure: the delivery record is marked `bounced` with the
truncated limit message as bounce reason, the lead keeps its prior status,
and the lead is counted in `emails_failed`, the per-lead detail carrying no
skip marker. -/
theorem C1_skip_behavior (limit : Int) (today : Nat) (backend : Nat → SendResult)
    (subject body : String) (lead : Lead) (lim : LimiterState)
    (hpos : 0 < limit) (hfull : (can_send limit lim today).1 = false) :
    (processLead limit today backend subject body lead lim).calls = 0 ∧
    (processLead limit today backend subject body lead lim).outcome.skipped_daily_limit
      = true ∧
    (processLead limit today backend subject body lead lim).outcome.success = false ∧
    (processLead limit today backend subject body lead lim).limiter = lim ∧
    (processLead limit today backend subject body lead lim).seq.status = "bounced" ∧
    (processLead limit today backend subject body lead lim).seq.bounce_reason
      = some (pyTake (limitMsg limit) 255) ∧
    (processLead limit today backend subject body lead lim).lead.status = lead.status ∧
    (runBatch limit today (fun _ => backend) subject body [lead] 0 lim).emails_failed
      = 1 ∧
    (runBatch limit today (fun _ => backend) subject body [lead] 0 lim).emails_sent
      = 0 := by
  have hreset := reset_eq_of_not_can_send hpos hfull
  have hstep : processLead limit today backend subject body lead lim =
      { lead := lead,
        seq := { status := "bounced", sendgrid_message_id := none, sent_at_set := false,
                 bounce_reason := some (pyTake (limitMsg limit) 255),
                 email_subject := personalize_template subject (leadToData lead),
                 email_body := personalize_template body (leadToData lead) },
        detail := { lead_id := lead.id, email := lead.email, success := false,
                    message_id := none, error := some (limitMsg limit) },
        outcome := { success := false, message_id := none,
                     error := some (limitMsg limit), skipped_daily_limit := true },
        success := false, limiter := lim, calls := 0 } := by
    simp only [processLead]
    rw [send_campaign_email_skip limit today backend 3 lim _ hfull, hreset]
    rfl
  rw [hstep]
  refine ⟨rfl, rfl, rfl, rfl, rfl, rfl, rfl, ?_, ?_⟩ <;>
    simp [runBatch, hstep]

theorem C1_skip_behavior_witness :
    (processLead 1 0 (fun _ => .failure "e") "S" "B"
        { id := 7, first_name := "Ann", last_name := none, email := "a@x",
          phone := none, address := none, property_type := none,
          estimated_value := none, status := "uploaded" } ⟨1, 0⟩).calls = 0 :=
  (C1_skip_behavior 1 0 (fun _ => .failure "e") "S" "B"
      { id := 7, first_name := "Ann", last_name := none, email := "a@x",
        phone := none, address := none, property_type := none,
        estimated_value := none, status := "uploaded" } ⟨1, 0⟩
      (by decide) (by decide)).1

/-! ## Claim C7 (corrected) -/

/-- C7 counterexample: a backend whose three attempts all fail with an empty
error text (`str(e)` of a bare exception is `""`). The delivery record ends
`bounced`, but its recorded bounce reason is the empty string — not a
non-empty error reason as the claim states. -/
theorem C7_counterexample :
    (processLead 0 0 (fun _ => .failure "") "S" "B"
        { id := 7, first_name := "Ann", last_name := none, email := "a@x",
          phone := none, address := none, property_type := none,
          estimated_value := none, status := "uploaded" } ⟨0, 0⟩).seq.status
      = "bounced" ∧
    (processLead 0 0 (fun _ => .failure "") "S" "B"
        { id := 7, first_name := "Ann", last_name := none, email := "a@x",
          phone := none, address := none, property_type := none,
          estimated_value := none, status := "uploaded" } ⟨0, 0⟩).seq.bounce_reason
      = some "" := by
  decide

/-- C7 (amended): for a lead whose send is not skipped by the daily limit
and whose 3 attempts all fail, the delivery record ends in the `bounced`
failure status with the final attempt's error text truncated to at most 255
characters as bounce reason — non-empty whenever that error text is
non-empty — and the lead's own status is not rolled back. -/
theorem C7_failure_record (limit : Int) (today : Nat) (backend : Nat → SendResult)
    (subject body : String) (lead : Lead) (lim : LimiterState)
    (hc : (can_send limit lim today).1 = true)
    (hfail : ∀ k, 1 ≤ k → k ≤ 3 → (backend k).isSuccess = false) :
    (processLead limit today backend subject body lead lim).seq.status = "bounced" ∧
    (∃ e, backend 3 = .failure e ∧
      (processLead limit today backend subject body lead lim).seq.bounce_reason
        = some (pyTake e 255)) ∧
    (∀ r, (processLead limit today backend subject body lead lim).seq.bounce_reason
        = some r → r.length ≤ 255) ∧
    (∀ e, backend 3 = .failure e → e ≠ "" →
      (processLead limit today backend subject body lead lim).seq.bounce_reason
        ≠ some "") ∧
    (processLead limit today backend subject body lead lim).lead.status
      = lead.status ∧
    (processLead limit today backend subject body lead lim).limiter
      = resetIfNewDay lim today := by
  obtain ⟨e₁, h1⟩ : ∃ e, backend 1 = .failure e := by
    have h := hfail 1 le_rfl (by norm_num)
    cases hb : backend 1
    · rw [hb] at h; simp [SendResult.isSuccess] at h
    · exact ⟨_, rfl⟩
  obtain ⟨e₂, h2⟩ : ∃ e, backend 2 = .failure e := by
    have h := hfail 2 (by norm_num) (by norm_num)
    cases hb : backend 2
    · rw [hb] at h; simp [SendResult.isSuccess] at h
    · exact ⟨_, rfl⟩
  obtain ⟨e₃, h3⟩ : ∃ e, backend 3 = .failure e := by
    have h := hfail 3 (by norm_num) (by norm_num)
    cases hb : backend 3
    · rw [hb] at h; simp [SendResult.isSuccess] at h
    · exact ⟨_, rfl⟩
  have hr3 := retryLoop_three backend
  rw [h1, h2, h3] at hr3
  have hfst : (retryLoop backend 1 3).1 = .failure e₃ := by rw [hr3]
  have hstep : processLead limit today backend subject body lead lim =
      { lead := lead,
        seq := { status := "bounced", sendgrid_message_id := none, sent_at_set := false,
                 bounce_reason := some (pyTake e₃ 255),
                 email_subject := personalize_template subject (leadToData lead),
                 email_body := personalize_template body (leadToData lead) },
        detail := { lead_id := lead.id, email := lead.email, success := false,
                    message_id := none, error := some e₃ },
        outcome := { success := false, message_id := none, error := some e₃,
                     skipped_daily_limit := false },
        success := false, limiter := resetIfNewDay lim today,
        calls := (retryLoop backend 1 3).2.1 } := by
    simp only [processLead]
    rw [send_campaign_email_failure limit today backend 3 lim _ e₃ hc hfst]
    rfl
  rw [hstep]
  refine ⟨rfl, ⟨e₃, h3, rfl⟩, ?_, ?_, rfl, rfl⟩
  · intro r hr
    have hre : pyTake e₃ 255 = r := by simpa using hr
    rw [← hre]
    exact pyTake_length_le e₃ 255
  · intro e he hne habs
    rw [h3] at he
    injection he with he'
    have : pyTake e₃ 255 = "" := by simpa using habs
    exact pyTake_255_ne_empty (he' ▸ hne) this

theorem C7_failure_record_witness :
    (processLead 0 0 (fun _ => .failure "boom") "S" "B"
        { id := 7, first_name := "Ann", last_name := none, email := "a@x",
          phone := none, address := none, property_type := none,
          estimated_value := none, status := "uploaded" } ⟨0, 0⟩).seq.status
      = "bounced" ∧
    (processLead 0 0 (fun _ => .failure "boom") "S" "B"
        { id := 7, first_name := "Ann", last_name := none, email := "a@x",
          phone := none, address := none, property_type := none,
          estimated_value := none, status := "uploaded" } ⟨0, 0⟩).lead.status
      = "uploaded" := by
  have h := C7_failure_record 0 0 (fun _ => .failure "boom") "S" "B"
      { id := 7, first_name := "Ann", last_name := none, email := "a@x",
        phone := none, address := none, property_type := none,
        estimated_value := none, status := "uploaded" } ⟨0, 0⟩
      (by decide) (fun _ _ _ => rfl)
  exact ⟨h.1, h.2.2.2.2.1⟩

/-! ## Claim C8 -/

theorem processLead_seq_shape (limit : Int) (today : Nat) (backend : Nat → SendResult)
    (subject body : String) (lead : Lead) (lim : LimiterState) :
    ((processLead limit today backend subject body lead lim).seq.status = "sent" ∧
      (processLead limit today backend subject body lead lim).seq.sendgrid_message_id
        ≠ none ∧
      (processLead limit today backend subject body lead lim).seq.sent_at_set = true) ∨
    ((processLead limit today backend subject body lead lim).seq.status = "bounced" ∧
      (processLead limit today backend subject body lead lim).seq.sendgrid_message_id
        = none) := by
  cases hcs : (can_send limit lim today).1 with
  | false =>
    right
    simp only [processLead]
    rw [send_campaign_email_skip limit today backend 3 lim _ hcs]
    exact ⟨rfl, rfl⟩
  | true =>
    cases hr : (retryLoop backend 1 3).1 with
    | success mid =>
      left
      simp only [processLead]
      rw [send_campaign_email_success limit today backend 3 lim _ mid hcs hr]
      exact ⟨rfl, by simp [persist_message_id], rfl⟩
    | failure e =>
      right
      simp only [processLead]
      rw [send_campaign_email_failure limit today backend 3 lim _ e hcs hr]
      exact ⟨rfl, rfl⟩

/-- C8: after a campaign batch completes, every delivery record it created
has its provider message identifier set iff its status advanced to `sent`;
a `sent` record also has its sent timestamp stamped, and a record still
`pending` or in the `bounced` failure status has no provider message
identifier. -/
theorem C8_message_id_invariant (limit : Int) (today : Nat)
    (backend : Nat → Nat → SendResult) (subject body : String)
    (leads : List Lead) (i : Nat) (lim : LimiterState) :
    ∀ seq ∈ (runBatch limit today backend subject body leads i lim).seqs,
      (seq.sendgrid_message_id ≠ none ↔ seq.status = "sent") ∧
      (seq.status = "sent" → seq.sent_at_set = true) ∧
      (seq.status = "pending" ∨ seq.status = "bounced" →
        seq.sendgrid_message_id = none) := by
  induction leads generalizing i lim with
  | nil =>
    intro seq hm
    simp [runBatch] at hm
  | cons lead rest ih =>
    intro seq hm
    have hm' : seq = (processLead limit today (backend i) subject body lead lim).seq
        ∨ seq ∈ (runBatch limit today backend subject body rest (i + 1)
            (processLead limit today (backend i) subject body lead lim).limiter).seqs := by
      simpa [runBatch] using hm
    rcases hm' with rfl | hm'
    · rcases processLead_seq_shape limit today (backend i) subject body lead lim with
        ⟨hs, hmid, hat⟩ | ⟨hs, hmid⟩
      · refine ⟨⟨fun _ => hs, fun _ => hmid⟩, fun _ => hat, fun hb => ?_⟩
        rcases hb with hb | hb <;> rw [hs] at hb <;> simp at hb
      · refine ⟨⟨fun hx => absurd hmid hx, fun hx => ?_⟩, fun hx => ?_, fun _ => hmid⟩
        · rw [hs] at hx; simp at hx
        · rw [hs] at hx; simp at hx
    · exact ih (i + 1) _ seq hm'

theorem C8_message_id_invariant_witness :
    ((runBatch 0 0 (fun _ _ => .success "mid") "S" "B"
        [{ id := 7, first_name := "Ann", last_name := none, email := "a@x",
           phone := none, address := none, property_type := none,
           estimated_value := none, status := "uploaded" }] 0
        ⟨0, 0⟩).seqs.headD
      { status := "", sendgrid_message_id := none, sent_at_set := false,
        bounce_reason := none, email_subject := "", email_body := "" }).sendgrid_message_id
        ≠ none ↔
      ((runBatch 0 0 (fun _ _ => .success "mid") "S" "B"
        [{ id := 7, first_name := "Ann", last_name := none, email := "a@x",
           phone := none, address := none, property_type := none,
           estimated_value := none, status := "uploaded" }] 0
        ⟨0, 0⟩).seqs.headD
      { status := "", sendgrid_message_id := none, sent_at_set := false,
        bounce_reason := none, email_subject := "", email_body := "" }).status = "sent" :=
  (C8_message_id_invariant 0 0 (fun _ _ => .success "mid") "S" "B"
      [{ id := 7, first_name := "Ann", last_name := none, email := "a@x",
         phone := none, address := none, property_type := none,
         estimated_value := none, status := "uploaded" }] 0 ⟨0, 0⟩
      _ (by decide)).1

/-! ## Claim C5 (corrected) -/

theorem getOrEmpty_bracesFree {v : PyVal} (hv : v.bracesFree) :
    v.getOrEmpty.bracesFree := by
  cases v with
  | absent => exact (by decide : ('\x7b' ∉ ("" : String).data))
  | null => trivial
  | str s => exact hv

/-- C5 counterexample: with the `lead_id` key present but `None`, the
single-token template renders the text `"None"` (Python applies `str(...)`
to this value before the truthiness check), not the empty string the claim
requires for a null attribute. -/
theorem C5_counterexample :
    personalize_template "\x7b\x7blead_id\x7d\x7d"
      { first_name := .absent, last_name := .absent, email := .absent,
        phone := .absent, address := .absent, property_type := .absent,
        estimated_value := .absent, lead_id := .null } = "None" ∧
    ("None" : String) ≠ "" := by
  decide

/-- C5 (amended): for every lead-attribute mapping whose present string
values contain no brace character (so no substituted value is rescanned as
a later placeholder), a template consisting of exactly one supported token
renders to the corresponding attribute's string value, or `""` when the
attribute is absent or null — except `lead_id`, where a null renders as the
text `"None"` (so does a null name component inside `full_name`, per
`PyVal.pyStr`); `full_name` renders as the stripped space-joined
concatenation of the first and last name fields, including when the last
name is the empty string. -/
theorem C5_single_token_render (d : LeadData)
    (hb₁ : d.first_name.bracesFree) (hb₂ : d.last_name.bracesFree)
    (hb₃ : d.email.bracesFree) (hb₄ : d.phone.bracesFree)
    (hb₅ : d.address.bracesFree) (hb₆ : d.property_type.bracesFree)
    (hb₇ : d.estimated_value.bracesFree) (hb₈ : d.lead_id.bracesFree) :
    personalize_template "\x7b\x7bfirst_name\x7d\x7d" d = renderedAttr d.first_name ∧
    personalize_template "\x7b\x7blast_name\x7d\x7d" d = renderedAttr d.last_name ∧
    personalize_template "\x7b\x7bemail\x7d\x7d" d = renderedAttr d.email ∧
    personalize_template "\x7b\x7bphone\x7d\x7d" d = renderedAttr d.phone ∧
    personalize_template "\x7b\x7baddress\x7d\x7d" d = renderedAttr d.address ∧
    personalize_template "\x7b\x7bproperty_type\x7d\x7d" d
      = renderedAttr d.property_type ∧
    personalize_template "\x7b\x7bestimated_value\x7d\x7d" d
      = renderedAttr d.estimated_value ∧
    personalize_template "\x7b\x7blead_id\x7d\x7d" d = d.lead_id.getOrEmpty.pyStr ∧
    personalize_template "\x7b\x7bfull_name\x7d\x7d" d
      = pyStrip (d.first_name.getOrEmpty.pyStr ++ " "
          ++ d.last_name.getOrEmpty.pyStr) ∧
    (d.last_name = .str "" →
      personalize_template "\x7b\x7bfull_name\x7d\x7d" d
        = pyStrip (d.first_name.getOrEmpty.pyStr ++ " ")) := by
  have hpost : ∀ (v : PyVal), v.bracesFree → ∀ pats : List String,
      (∀ p ∈ pats, '\x7b' ∈ p.data) →
      ∀ p ∈ pats, occurs p.data (renderVal v).data = false :=
    fun _ hv _ hp p hm => occurs_eq_false_of_not_mem (hp p hm) (renderVal_bracesFree hv)
  have hpostS : ∀ (x : String), '\x7b' ∉ x.data → ∀ pats : List String,
      (∀ p ∈ pats, '\x7b' ∈ p.data) →
      ∀ p ∈ pats, occurs p.data (renderVal (.str x)).data = false :=
    fun x hx => hpost (.str x) hx
  have e₁ : personalize_template "\x7b\x7bfirst_name\x7d\x7d" d
      = renderVal d.first_name.getOrEmpty :=
    foldl_replace_hit []
      [ ("\x7b\x7blast_name\x7d\x7d", d.last_name.getOrEmpty),
        ("\x7b\x7bemail\x7d\x7d", d.email.getOrEmpty),
        ("\x7b\x7bphone\x7d\x7d", d.phone.getOrEmpty),
        ("\x7b\x7baddress\x7d\x7d", d.address.getOrEmpty),
        ("\x7b\x7bproperty_type\x7d\x7d", d.property_type.getOrEmpty),
        ("\x7b\x7bestimated_value\x7d\x7d", d.estimated_value.getOrEmpty),
        ("\x7b\x7blead_id\x7d\x7d", .str d.lead_id.getOrEmpty.pyStr),
        ("\x7b\x7bfull_name\x7d\x7d",
          .str (pyStrip (d.first_name.getOrEmpty.pyStr ++ " "
            ++ d.last_name.getOrEmpty.pyStr))) ]
      "\x7b\x7bfirst_name\x7d\x7d" d.first_name.getOrEmpty
      "\x7b\x7bfirst_name\x7d\x7d" (by simp) rfl (by decide)
      (hpost _ (getOrEmpty_bracesFree hb₁) _ (by dsimp only [List.map_cons, List.map_nil]; decide))
  have e₂ : personalize_template "\x7b\x7blast_name\x7d\x7d" d
      = renderVal d.last_name.getOrEmpty :=
    foldl_replace_hit
      [ ("\x7b\x7bfirst_name\x7d\x7d", d.first_name.getOrEmpty) ]
      [ ("\x7b\x7bemail\x7d\x7d", d.email.getOrEmpty),
        ("\x7b\x7bphone\x7d\x7d", d.phone.getOrEmpty),
        ("\x7b\x7baddress\x7d\x7d", d.address.getOrEmpty),
        ("\x7b\x7bproperty_type\x7d\x7d", d.property_type.getOrEmpty),
        ("\x7b\x7bestimated_value\x7d\x7d", d.estimated_value.getOrEmpty),
        ("\x7b\x7blead_id\x7d\x7d", .str d.lead_id.getOrEmpty.pyStr),
        ("\x7b\x7bfull_name\x7d\x7d",
          .str (pyStrip (d.first_name.getOrEmpty.pyStr ++ " "
            ++ d.last_name.getOrEmpty.pyStr))) ]
      "\x7b\x7blast_name\x7d\x7d" d.last_name.getOrEmpty
      "\x7b\x7blast_name\x7d\x7d" (by dsimp only [List.map_cons, List.map_nil]; decide) rfl (by decide)
      (hpost _ (getOrEmpty_bracesFree hb₂) _ (by dsimp only [List.map_cons, List.map_nil]; decide))
  have e₃ : personalize_template "\x7b\x7bemail\x7d\x7d" d
      = renderVal d.email.getOrEmpty :=
    foldl_replace_hit
      [ ("\x7b\x7bfirst_name\x7d\x7d", d.first_name.getOrEmpty),
        ("\x7b\x7blast_name\x7d\x7d", d.last_name.getOrEmpty) ]
      [ ("\x7b\x7bphone\x7d\x7d", d.phone.getOrEmpty),
        ("\x7b\x7baddress\x7d\x7d", d.address.getOrEmpty),
        ("\x7b\x7bproperty_type\x7d\x7d", d.property_type.getOrEmpty),
        ("\x7b\x7bestimated_value\x7d\x7d", d.estimated_value.getOrEmpty),
        ("\x7b\x7blead_id\x7d\x7d", .str d.lead_id.getOrEmpty.pyStr),
        ("\x7b\x7bfull_name\x7d\x7d",
          .str (pyStrip (d.first_name.getOrEmpty.pyStr ++ " "
            ++ d.last_name.getOrEmpty.pyStr))) ]
      "\x7b\x7bemail\x7d\x7d" d.email.getOrEmpty
      "\x7b\x7bemail\x7d\x7d" (by dsimp only [List.map_cons, List.map_nil]; decide) rfl (by decide)
      (hpost _ (getOrEmpty_bracesFree hb₃) _ (by dsimp only [List.map_cons, List.map_nil]; decide))
  have e₄ : personalize_template "\x7b\x7bphone\x7d\x7d" d
      = renderVal d.phone.getOrEmpty :=
    foldl_replace_hit
      [ ("\x7b\x7bfirst_name\x7d\x7d", d.first_name.getOrEmpty),
        ("\x7b\x7blast_name\x7d\x7d", d.last_name.getOrEmpty),
        ("\x7b\x7bemail\x7d\x7d", d.email.getOrEmpty) ]
      [ ("\x7b\x7baddress\x7d\x7d", d.address.getOrEmpty),
        ("\x7b\x7bproperty_type\x7d\x7d", d.property_type.getOrEmpty),
        ("\x7b\x7bestimated_value\x7d\x7d", d.estimated_value.getOrEmpty),
        ("\x7b\x7blead_id\x7d\x7d", .str d.lead_id.getOrEmpty.pyStr),
        ("\x7b\x7bfull_name\x7d\x7d",
          .str (pyStrip (d.first_name.getOrEmpty.pyStr ++ " "
            ++ d.last_name.getOrEmpty.pyStr))) ]
      "\x7b\x7bphone\x7d\x7d" d.phone.getOrEmpty
      "\x7b\x7bphone\x7d\x7d" (by dsimp only [List.map_cons, List.map_nil]; decide) rfl (by decide)
      (hpost _ (getOrEmpty_bracesFree hb₄) _ (by dsimp only [List.map_cons, List.map_nil]; decide))
  have e₅ : personalize_template "\x7b\x7baddress\x7d\x7d" d
      = renderVal d.address.getOrEmpty :=
    foldl_replace_hit
      [ ("\x7b\x7bfirst_name\x7d\x7d", d.first_name.getOrEmpty),
        ("\x7b\x7blast_name\x7d\x7d", d.last_name.getOrEmpty),
        ("\x7b\x7bemail\x7d\x7d", d.email.getOrEmpty),
        ("\x7b\x7bphone\x7d\x7d", d.phone.getOrEmpty) ]
      [ ("\x7b\x7bproperty_type\x7d\x7d", d.property_type.getOrEmpty),
        ("\x7b\x7bestimated_value\x7d\x7d", d.estimated_value.getOrEmpty),
        ("\x7b\x7blead_id\x7d\x7d", .str d.lead_id.getOrEmpty.pyStr),
        ("\x7b\x7bfull_name\x7d\x7d",
          .str (pyStrip (d.first_name.getOrEmpty.pyStr ++ " "
            ++ d.last_name.getOrEmpty.pyStr))) ]
      "\x7b\x7baddress\x7d\x7d" d.address.getOrEmpty
      "\x7b\x7baddress\x7d\x7d" (by dsimp only [List.map_cons, List.map_nil]; decide) rfl (by decide)
      (hpost _ (getOrEmpty_bracesFree hb₅) _ (by dsimp only [List.map_cons, List.map_nil]; decide))
  have e₆ : personalize_template "\x7b\x7bproperty_type\x7d\x7d" d
      = renderVal d.property_type.getOrEmpty :=
    foldl_replace_hit
      [ ("\x7b\x7bfirst_name\x7d\x7d", d.first_name.getOrEmpty),
        ("\x7b\x7blast_name\x7d\x7d", d.last_name.getOrEmpty),
        ("\x7b\x7bemail\x7d\x7d", d.email.getOrEmpty),
        ("\x7b\x7bphone\x7d\x7d", d.phone.getOrEmpty),
        ("\x7b\x7baddress\x7d\x7d", d.address.getOrEmpty) ]
      [ ("\x7b\x7bestimated_value\x7d\x7d", d.estimated_value.getOrEmpty),
        ("\x7b\x7blead_id\x7d\x7d", .str d.lead_id.getOrEmpty.pyStr),
        ("\x7b\x7bfull_name\x7d\x7d",
          .str (pyStrip (d.first_name.getOrEmpty.pyStr ++ " "
            ++ d.last_name.getOrEmpty.pyStr))) ]
      "\x7b\x7bproperty_type\x7d\x7d" d.property_type.getOrEmpty
      "\x7b\x7bproperty_type\x7d\x7d" (by dsimp only [List.map_cons, List.map_nil]; decide) rfl (by decide)
      (hpost _ (getOrEmpty_bracesFree hb₆) _ (by dsimp only [List.map_cons, List.map_nil]; decide))
  have e₇ : personalize_template "\x7b\x7bestimated_value\x7d\x7d" d
      = renderVal d.estimated_value.getOrEmpty :=
    foldl_replace_hit
      [ ("\x7b\x7bfirst_name\x7d\x7d", d.first_name.getOrEmpty),
        ("\x7b\x7blast_name\x7d\x7d", d.last_name.getOrEmpty),
        ("\x7b\x7bemail\x7d\x7d", d.email.getOrEmpty),
        ("\x7b\x7bphone\x7d\x7d", d.phone.getOrEmpty),
        ("\x7b\x7baddress\x7d\x7d", d.address.getOrEmpty),
        ("\x7b\x7bproperty_type\x7d\x7d", d.property_type.getOrEmpty) ]
      [ ("\x7b\x7blead_id\x7d\x7d", .str d.lead_id.getOrEmpty.pyStr),
        ("\x7b\x7bfull_name\x7d\x7d",
          .str (pyStrip (d.first_name.getOrEmpty.pyStr ++ " "
            ++ d.last_name.getOrEmpty.pyStr))) ]
      "\x7b\x7bestimated_value\x7d\x7d" d.estimated_value.getOrEmpty
      "\x7b\x7bestimated_value\x7d\x7d" (by dsimp only [List.map_cons, List.map_nil]; decide) rfl (by decide)
      (hpost _ (getOrEmpty_bracesFree hb₇) _ (by dsimp only [List.map_cons, List.map_nil]; decide))
  have e₈ : personalize_template "\x7b\x7blead_id\x7d\x7d" d
      = renderVal (.str d.lead_id.getOrEmpty.pyStr) :=
    foldl_replace_hit
      [ ("\x7b\x7bfirst_name\x7d\x7d", d.first_name.getOrEmpty),
        ("\x7b\x7blast_name\x7d\x7d", d.last_name.getOrEmpty),
        ("\x7b\x7bemail\x7d\x7d", d.email.getOrEmpty),
        ("\x7b\x7bphone\x7d\x7d", d.phone.getOrEmpty),
        ("\x7b\x7baddress\x7d\x7d", d.address.getOrEmpty),
        ("\x7b\x7bproperty_type\x7d\x7d", d.property_type.getOrEmpty),
        ("\x7b\x7bestimated_value\x7d\x7d", d.estimated_value.getOrEmpty) ]
      [ ("\x7b\x7bfull_name\x7d\x7d",
          .str (pyStrip (d.first_name.getOrEmpty.pyStr ++ " "
            ++ d.last_name.getOrEmpty.pyStr))) ]
      "\x7b\x7blead_id\x7d\x7d" (.str d.lead_id.getOrEmpty.pyStr)
      "\x7b\x7blead_id\x7d\x7d" (by dsimp only [List.map_cons, List.map_nil]; decide) rfl (by decide)
      (hpostS _ (getOrEmpty_pyStr_bracesFree hb₈) _ (by dsimp only [List.map_cons, List.map_nil]; decide))
  have e₉ : personalize_template "\x7b\x7bfull_name\x7d\x7d" d
      = renderVal (.str (pyStrip (d.first_name.getOrEmpty.pyStr ++ " "
          ++ d.last_name.getOrEmpty.pyStr))) :=
    foldl_replace_hit
      [ ("\x7b\x7bfirst_name\x7d\x7d", d.first_name.getOrEmpty),
        ("\x7b\x7blast_name\x7d\x7d", d.last_name.getOrEmpty),
        ("\x7b\x7bemail\x7d\x7d", d.email.getOrEmpty),
        ("\x7b\x7bphone\x7d\x7d", d.phone.getOrEmpty),
        ("\x7b\x7baddress\x7d\x7d", d.address.getOrEmpty),
        ("\x7b\x7bproperty_type\x7d\x7d", d.property_type.getOrEmpty),
        ("\x7b\x7bestimated_value\x7d\x7d", d.estimated_value.getOrEmpty),
        ("\x7b\x7blead_id\x7d\x7d", .str d.lead_id.getOrEmpty.pyStr) ]
      []
      "\x7b\x7bfull_name\x7d\x7d"
      (.str (pyStrip (d.first_name.getOrEmpty.pyStr ++ " "
        ++ d.last_name.getOrEmpty.pyStr)))
      "\x7b\x7bfull_name\x7d\x7d" (by dsimp only [List.map_cons, List.map_nil]; decide) rfl (by decide) (by simp)
  rw [renderVal_getOrEmpty] at e₁ e₂ e₃ e₄ e₅ e₆ e₇
  rw [renderVal_str] at e₈ e₉
  refine ⟨e₁, e₂, e₃, e₄, e₅, e₆, e₇, e₈, e₉, fun hlast => ?_⟩
  rw [e₉, hlast]
  simp [PyVal.getOrEmpty, PyVal.pyStr]

theorem C5_single_token_render_witness :
    personalize_template "\x7b\x7bfull_name\x7d\x7d"
      { first_name := .str "Ann", last_name := .str "Lee", email := .str "a@x",
        phone := .absent, address := .absent, property_type := .absent,
        estimated_value := .absent, lead_id := .str "7" }
      = pyStrip (((PyVal.str "Ann").getOrEmpty).pyStr ++ " "
          ++ ((PyVal.str "Lee").getOrEmpty).pyStr) :=
  (C5_single_token_render
      { first_name := .str "Ann", last_name := .str "Lee", email := .str "a@x",
        phone := .absent, address := .absent, property_type := .absent,
        estimated_value := .absent, lead_id := .str "7" }
      (by decide) (by decide) (by decide) (by decide) (by decide) (by decide)
      (by decide) (by decide)).2.2.2.2.2.2.2.2.1

/-! ## Claim C6 -/

/-- C6: personalization is idempotent on any template whose one-pass result
contains no further occurrence of a supported placeholder token. -/
theorem C6_personalize_idempotent (t : String) (d : LeadData)
    (h : ∀ p ∈ (placeholderPairs d).map Prod.fst,
        occurs p.data (personalize_template t d).data = false) :
    personalize_template (personalize_template t d) d = personalize_template t d :=
  foldl_replace_no_occ (placeholderPairs d) (personalize_template t d) h

theorem C6_personalize_idempotent_witness :
    personalize_template
        (personalize_template "Hi \x7b\x7bfirst_name\x7d\x7d!"
          { first_name := .str "Ann", last_name := .absent, email := .absent,
            phone := .absent, address := .absent, property_type := .absent,
            estimated_value := .absent, lead_id := .absent })
        { first_name := .str "Ann", last_name := .absent, email := .absent,
          phone := .absent, address := .absent, property_type := .absent,
          estimated_value := .absent, lead_id := .absent }
      = personalize_template "Hi \x7b\x7bfirst_name\x7d\x7d!"
          { first_name := .str "Ann", last_name := .absent, email := .absent,
            phone := .absent, address := .absent, property_type := .absent,
            estimated_value := .absent, lead_id := .absent } :=
  C6_personalize_idempotent "Hi \x7b\x7bfirst_name\x7d\x7d!"
    { first_name := .str "Ann", last_name := .absent, email := .absent,
      phone := .absent, address := .absent, property_type := .absent,
      estimated_value := .absent, lead_id := .absent }
    (by decide)

/-! ## Claim C9 -/

theorem safe_next_action_type_mem (v : Option String) :
    safe_next_action_type v ∈ ["continue", "book_meeting", "escalate_human", "end"] := by
  cases v with
  | none => simp [safe_next_action_type]
  | some s =>
    by_cases hs : s = "continue" ∨ s = "book_meeting" ∨ s = "escalate_human" ∨ s = "end"
    · show (if s = "continue" ∨ s = "book_meeting" ∨ s = "escalate_human" ∨ s = "end"
          then s else "continue") ∈ _
      rw [if_pos hs]
      rcases hs with h | h | h | h <;> simp [h]
    · show (if s = "continue" ∨ s = "book_meeting" ∨ s = "escalate_human" ∨ s = "end"
          then s else "continue") ∈ _
      rw [if_neg hs]
      simp

theorem demoReply_type_mem (ctx : LeadContext) (normalized first_name : String) :
    (demoReply ctx normalized first_name).next_action.type
      ∈ ["continue", "book_meeting", "escalate_human", "end"] := by
  unfold demoReply
  split_ifs <;> simp

theorem openaiFallback_type_mem (ctx : LeadContext) (normalized first_name : String) :
    (openaiFallback ctx normalized first_name).next_action.type
      ∈ ["continue", "book_meeting", "escalate_human", "end"] := by
  unfold openaiFallback
  split_ifs <;> simp

theorem openai_chatbot_json_type_mem (ctx : LeadContext) (content : Option String)
    (parsed : Option ParsedReply) :
    (openai_chatbot_json ctx content parsed).next_action.type
      ∈ ["continue", "book_meeting", "escalate_human", "end"] := by
  cases parsed with
  | none => simp [openai_chatbot_json]
  | some p =>
    show safe_next_action_type p.next_action_type ∈ _
    exact safe_next_action_type_mem p.next_action_type

/-- C9: `generate_chatbot_reply` never propagates a provider error or a
non-JSON provider response: every returned value's next-action type lies in
the fixed closed set; when the LLM call raises, the result is the
deterministic fallback computed from the lead context and messages alone;
and a response whose JSON parse fails yields the safe `continue` action. -/
theorem C9_chatbot_safe (openai_configured client_initialized : Bool)
    (provider : ProviderOutcome) (ctx : LeadContext) (messages : List Message) :
    ((generate_chatbot_reply openai_configured client_initialized provider ctx
        messages).next_action.type
      ∈ ["continue", "book_meeting", "escalate_human", "end"]) ∧
    (openai_configured = true → client_initialized = true → provider = .raises →
      generate_chatbot_reply openai_configured client_initialized provider ctx messages
        = openaiFallback ctx (lastUserMessage messages).toLower
            (firstNameOr ctx.first_name)) ∧
    (∀ content, openai_configured = true → client_initialized = true →
      provider = .returns content none →
      (generate_chatbot_reply openai_configured client_initialized provider ctx
          messages).next_action.type = "continue") := by
  refine ⟨?_, ?_, ?_⟩
  · cases openai_configured with
    | false => exact demoReply_type_mem ctx _ _
    | true =>
      cases client_initialized with
      | false => exact openaiFallback_type_mem ctx _ _
      | true =>
        cases provider with
        | raises => exact openaiFallback_type_mem ctx _ _
        | returns content parsed => exact openai_chatbot_json_type_mem ctx content parsed
  · rintro rfl rfl rfl
    rfl
  · rintro content rfl rfl rfl
    rfl

theorem C9_chatbot_safe_witness :
    generate_chatbot_reply true true .raises { first_name := none, lead_score := none }
        []
      = openaiFallback { first_name := none, lead_score := none }
          (lastUserMessage []).toLower (firstNameOr none) :=
  (C9_chatbot_safe true true .raises { first_name := none, lead_score := none } []).2.1
    rfl rfl rfl
